import Mathlib

/-!
Verification of the software_supply_chain_exporter core pipeline.

We give a shallow embedding of the repository's Rust code
(src/config.rs, src/sbom.rs, src/scan.rs, src/metrics.rs) in Lean.
Filesystem contents, subprocess outcomes and JSON (de)serialization by
external libraries are modelled as oracle functions collected in a
`World` / `ScanWorld` / `MetricsWorld` structure; the repository's own
control flow — cache lookup, attestation fallback, generator
invocation, caching, the per-source loops, label derivation, the cache
janitor — is translated statement by statement.  Each function returns,
besides its result, the ordered list of observable events (subprocess
spawns and exits, cache writes, error log lines) it performs, so that
statements about "no subprocess is spawned" or about sequencing are
expressible.
-/

set_option maxHeartbeats 1000000

namespace Ssce

/-- A minimal JSON value, standing in for `serde_json::Value`. -/
inductive Value where
  | null : Value
  | str : String → Value
  | num : Int → Value
  | arr : List Value → Value
  | obj : List (String × Value) → Value

/-- First-match lookup in a JSON object's field list
(`serde_json::Value::get` on an object; keys of a parsed object are unique). -/
def lookupField : List (String × Value) → String → Option Value
  | [], _ => none
  | (k, v) :: rest, key => if k = key then some v else lookupField rest key

/-- `serde_json::Value::get`: field lookup on objects, `None` on any other variant. -/
def Value.get (v : Value) (key : String) : Option Value :=
  match v with
  | .obj fields => lookupField fields key
  | _ => none

/-- `Source` from src/config.rs: a scan target. `PathBuf` is modelled as `String`. -/
inductive Source where
  | dockerImage (name : String) (id : String)
  | hostDirectory (path : String)
deriving DecidableEq

/-- `Config` from src/config.rs.  `cache_duration` is in seconds;
`metrics_path_field` is the optional `metrics_path` field (the method
`Config::metrics_path` is `Config.metrics_path` below). -/
structure Config where
  base_path : String
  metrics_path_field : Option String
  cache_duration : Nat
  excludes : List String
  generate_sboms : Bool

/-- `Config::sbom_path`: the deterministic cache path, defined only for
`DockerImage` and built from the image id. -/
def Config.sbom_path (c : Config) (s : Source) : Option String :=
  match s with
  | .dockerImage _ id => some (c.base_path ++ "/sbom/docker/" ++ id ++ ".json")
  | .hostDirectory _ => none

/-- `Config::metrics_path`: the configured path, defaulting under `base_path`. -/
def Config.metrics_path (c : Config) : String :=
  match c.metrics_path_field with
  | some p => p
  | none => c.base_path ++ "/metrics/metrics.prom"

/-- An external subprocess the pipeline can invoke. -/
inductive Proc where
  | syft (args : List String)
  | buildx (target : String)
  | grypeUpdate
  | grype (sbom : Value)

/-- An observable side effect of the pipeline, in order of occurrence. -/
inductive Event where
  | spawn (p : Proc)
  | exit (p : Proc)
  | fsWrite (path : String)
  | log (msg : String)

/-- State of the on-disk cache file at a given path: absent
(`fs::metadata` fails), present but unreadable/unparsable, or present
and parsing to a JSON value. -/
inductive CacheState where
  | absent
  | presentBad (msg : String)
  | presentOk (v : Value)

/-- The external world seen by the SBOM stage: cache-file contents, the
outcome of running `docker buildx imagetools inspect` / `syft`
(standard-output bytes or a spawn/IO failure), `serde_json::from_slice`
on captured bytes, whether persisting to the cache path succeeds, and
the host's instruction-set architecture (`std::env::consts::ARCH`). -/
structure World where
  cacheFile : String → CacheState
  buildxRun : String → Except String String
  syftRun : List String → Except String String
  parseJson : String → Except String Value
  fsWriteOk : String → Bool
  arch : String

/-- The architecture key used to select an attestation variant
(the `match std::env::consts::ARCH` in `get_sbom`). -/
def archKey (arch : String) : String :=
  if arch = "x86_64" then "linux/amd64"
  else if arch = "aarch64" then "linux/arm64"
  else ""

/-- `get_sbom` from src/sbom.rs: if the cache file is present, read and
parse it (no subprocess); otherwise run the attestation lookup
subprocess, parse its stdout, and select the architecture-specific
`SPDX` document. -/
def get_sbom (w : World) (scan_target : String) (sbom_path : String) :
    List Event × Except String Value :=
  match w.cacheFile sbom_path with
  | .presentOk v => ([], .ok v)
  | .presentBad msg => ([], .error msg)
  | .absent =>
    let arch := archKey w.arch
    let tr := [Event.spawn (.buildx scan_target), Event.exit (.buildx scan_target)]
    match w.buildxRun scan_target with
    | .error e => (tr, .error e)
    | .ok out =>
      match w.parseJson out with
      | .error e => (tr, .error e)
      | .ok output =>
        match (match output.get arch with
               | some v => v.get "SPDX"
               | none => output.get "SPDX") with
        | some parsed => (tr, .ok parsed)
        | none => (tr, .error "Image does not have compatible sbom attestation")

/-- The argument list `create_sbom` builds for the generator: the fixed
flags, the per-exclude pairs for host directories (each exclude prefixed
with `"."`), then the scan target. -/
def syft_args (config : Config) (source : Source) (scan_target : String) : List String :=
  ["scan", "--quiet", "-o", "spdx-json", "--override-default-catalogers", "all"]
    ++ (match source with
        | .hostDirectory _ => config.excludes.flatMap (fun ex => ["--exclude", "." ++ ex])
        | .dockerImage _ _ => [])
    ++ [scan_target]

/-- The generator branch of `create_sbom`: run syft, persist raw stdout
to the cache path when one exists (`create_dir_all` + `fs::write`,
collapsed into `fsWriteOk`), then parse the stdout. -/
def run_syft (w : World) (config : Config) (source : Source) (scan_target : String)
    (sbom_path : Option String) : List Event × Except String Value :=
  let args := syft_args config source scan_target
  let tr := [Event.spawn (.syft args), Event.exit (.syft args)]
  match w.syftRun args with
  | .error e => (tr, .error e)
  | .ok out =>
    match sbom_path with
    | some p =>
      if w.fsWriteOk p then
        match w.parseJson out with
        | .error e => (tr ++ [.fsWrite p], .error e)
        | .ok v => (tr ++ [.fsWrite p], .ok v)
      else (tr, .error "failed to write sbom to cache location")
    | none =>
      match w.parseJson out with
      | .error e => (tr, .error e)
      | .ok v => (tr, .ok v)

/-- The branching of `create_sbom` on the cache path: if one exists,
try `get_sbom` first and return its result on success; otherwise fall
through to the generator. -/
def create_sbom_result (w : World) (config : Config) (source : Source)
    (scan_target : String) : List Event × Except String Value :=
  match config.sbom_path source with
  | some p =>
    let r0 := get_sbom w scan_target p
    match r0.2 with
    | .ok v => (r0.1, .ok v)
    | .error _ =>
      let r1 := run_syft w config source scan_target (some p)
      (r0.1 ++ r1.1, r1.2)
  | none => run_syft w config source scan_target none

/-- `create_sbom` from src/sbom.rs: compute the target and cache path,
resolve, and pair the resolved document with its source (every `Ok`
return of the Rust function is `Ok((source, ..))`). -/
def create_sbom (w : World) (config : Config) (source : Source) :
    List Event × Except String (Source × Value) :=
  let scan_target := match source with
    | .dockerImage name _ => name
    | .hostDirectory path => path
  let r := create_sbom_result w config source scan_target
  (r.1, r.2.map (fun v => (source, v)))

/-- `HashMap::insert`: replace the binding of `k` if present, else append. -/
def mapInsert {α : Type} : List (Source × α) → Source → α → List (Source × α)
  | [], k, v => [(k, v)]
  | (k', v') :: rest, k, v =>
    if k' = k then (k, v) :: rest else (k', v') :: mapInsert rest k v

/-- `HashMap::get`: the value bound to `k`, if any. -/
def mapGet {α : Type} : List (Source × α) → Source → Option α
  | [], _ => none
  | (k', v') :: rest, k => if k' = k then some v' else mapGet rest k

/-- The body of one iteration of a fan-out loop for item `x`:
`none` means the iteration does nothing for `x`; otherwise it performs
the returned events and either yields a key/value to insert or an error
message, already formatted as it would be printed. -/
def fanoutLoop {ι β : Type} (body : ι → Option (List Event × Except String (Source × β))) :
    List ι → List (Source × β) → List Event × List (Source × β)
  | [], acc => ([], acc)
  | x :: rest, acc =>
    match body x with
    | none => fanoutLoop body rest acc
    | some (ev, .error e) =>
      let r := fanoutLoop body rest acc
      (ev ++ [.log e] ++ r.1, r.2)
    | some (ev, .ok (k, v)) =>
      let r := fanoutLoop body rest (mapInsert acc k v)
      (ev ++ r.1, r.2)

/-- The per-source body of `create_sboms`' loop: in active mode run
`create_sbom`; in passive mode, only for a `DockerImage` with a cache
path, run `get_sbom`; anything else is skipped silently.  Error strings
carry the `println!` prefixes of src/sbom.rs. -/
def sbomBody (w : World) (config : Config) (source : Source) :
    Option (List Event × Except String (Source × Value)) :=
  if config.generate_sboms then
    let r := create_sbom w config source
    some (r.1, r.2.mapError (fun e => "Error creating sbom: " ++ e))
  else
    match source, config.sbom_path source with
    | .dockerImage name id, some p =>
      let r := get_sbom w name p
      some (r.1,
        match r.2 with
        | .ok v => .ok (Source.dockerImage name id, v)
        | .error e => .error ("Error loading sbom: " ++ e))
    | _, _ => none

/-- `create_sboms` from src/sbom.rs: loop over the sources, collect the
successes into the map, log and drop failures, and return `Ok`. -/
def create_sboms (w : World) (config : Config) (sources : List Source) :
    List Event × Except String (List (Source × Value)) :=
  let r := fanoutLoop (sbomBody w config) sources []
  (r.1, .ok r.2)

/-! ## The scan stage (src/scan.rs) -/

/-- `rust_decimal::Decimal`: an integer mantissa scaled by `10 ^ scale`. -/
structure Decimal where
  mantissa : Int
  scale : Nat
deriving DecidableEq

/-- `Decimal`'s display: the mantissa rendered with exactly `scale`
fractional digits (`Decimal::new(0, 1)` prints as `"0.0"`). -/
def Decimal.toStr (d : Decimal) : String :=
  let n := d.mantissa.natAbs
  let sign := if d.mantissa < 0 then "-" else ""
  if d.scale = 0 then sign ++ toString n
  else
    let p := 10 ^ d.scale
    let fpStr := toString (n % p)
    let pad := String.mk (List.replicate (d.scale - fpStr.length) '0')
    sign ++ toString (n / p) ++ "." ++ pad ++ fpStr

/-- `CvssMetrics` from src/scan.rs. -/
structure CvssMetrics where
  base_score : Decimal
  exploitability_score : Decimal
  impact_score : Decimal
deriving DecidableEq

/-- `Cvss` from src/scan.rs. -/
structure Cvss where
  source : String
  cvss_type : String
  version : String
  vector : String
  metrics : CvssMetrics
deriving DecidableEq

/-- `FixState` from src/scan.rs. -/
inductive FixState where
  | unknown
  | fixed
  | notFixed
  | wontFix
deriving DecidableEq

/-- `FixState`'s `Display`, which writes the `Debug` form of the variant. -/
def FixState.toStr : FixState → String
  | .unknown => "Unknown"
  | .fixed => "Fixed"
  | .notFixed => "NotFixed"
  | .wontFix => "WontFix"

/-- `Fix` from src/scan.rs. -/
structure Fix where
  versions : List String
  state : FixState
deriving DecidableEq

/-- `Vulnerability` from src/scan.rs. -/
structure Vulnerability where
  id : String
  severity : String
  urls : List String
  fix : Fix
  cvss : List Cvss
deriving DecidableEq

/-- `ScanArtifact` from src/scan.rs. -/
structure ScanArtifact where
  name : String
deriving DecidableEq

/-- `ScanEntry` from src/scan.rs. -/
structure ScanEntry where
  vulnerability : Vulnerability
  artifact : ScanArtifact
deriving DecidableEq

/-- `Scan` from src/scan.rs: a parsed vulnerability report. -/
structure Scan where
  matches' : List ScanEntry
deriving DecidableEq

/-- Outcome of the database-refresh subprocess in `scan`:
`spawn()` may fail, `wait()` may fail, or the process exits with a
status code — which the code receives and discards. -/
inductive UpdateOutcome where
  | spawnFailed (msg : String)
  | waitFailed (msg : String)
  | exited (status : Nat)

/-- The external world seen by the scan stage: the database-refresh
outcome, the composite outcome of one scanner invocation (spawn,
feeding the serialized SBOM on stdin, waiting; `ok` is captured
stdout), and `serde_json::from_slice` on that stdout. -/
structure ScanWorld where
  update : UpdateOutcome
  grypeRun : Value → Except String String
  parseScan : String → Except String Scan

/-- `scan_single` from src/scan.rs: spawn the scanner, feed it the
SBOM, wait, and parse its stdout into a report. -/
def scan_single (sw : ScanWorld) (source : Source) (sbom : Value) :
    List Event × Except String (Source × Scan) :=
  let tr := [Event.spawn (.grype sbom), Event.exit (.grype sbom)]
  match sw.grypeRun sbom with
  | .error e => (tr, .error e)
  | .ok out =>
    match sw.parseScan out with
    | .error e => (tr, .error e)
    | .ok sc => (tr, .ok (source, sc))

/-- The per-pair body of `scan`'s loop, with the `println!` prefix. -/
def scanBody (sw : ScanWorld) (p : Source × Value) :
    Option (List Event × Except String (Source × Scan)) :=
  let r := scan_single sw p.1 p.2
  some (r.1, r.2.mapError (fun e => "Failed to scan an sbom: " ++ e))

/-- `scan` from src/scan.rs: run the database refresh once (a `spawn`
or `wait` failure is propagated; the exit status is received and
dropped), then loop over the SBOM pairs, collecting successes and
logging failures, and return `Ok`. -/
def scan (sw : ScanWorld) (sboms : List (Source × Value)) :
    List Event × Except String (List (Source × Scan)) :=
  match sw.update with
  | .spawnFailed e => ([Event.spawn .grypeUpdate], .error e)
  | .waitFailed e => ([Event.spawn .grypeUpdate], .error e)
  | .exited _ =>
    let r := fanoutLoop (scanBody sw) sboms []
    ([Event.spawn .grypeUpdate, Event.exit .grypeUpdate] ++ r.1, .ok r.2)

/-! ## The cache janitor (`clean` in src/sbom.rs) -/

/-- One entry of the recursive walk over `base_path`, as `clean` sees
it: its path, whether `entry.metadata()` succeeded, whether the
metadata says it is a regular file, the path's extension (if any), and
the last-access time in seconds when `metadata.accessed()` succeeds.
Walk errors are already dropped by the first `filter_map`, so the input
list holds only readable entries. -/
structure DirEntry where
  path : String
  metaOk : Bool
  isFile : Bool
  ext : Option String
  accessed : Option Nat
deriving DecidableEq

/-- The filter chain of `clean`: keep entries with readable metadata,
that are regular files, with extension `json`, whose age
`now - accessed` (clamped at zero, as `duration_since(..).unwrap_or(0)`
does) is at least `cache_duration`; an undeterminable access time keeps
the file.  The result is the list of paths `clean` deletes. -/
def clean_targets (now : Nat) (cache_duration : Nat) (entries : List DirEntry) : List String :=
  ((((entries.filter (fun e => e.metaOk)).filter
      (fun e => e.isFile)).filter
      (fun e => e.ext = some "json")).filter
      (fun e =>
        match e.accessed with
        | some t => decide (cache_duration ≤ now - t)
        | none => false)).map (fun e => e.path)

/-- `clean` from src/sbom.rs: delete every targeted path, in order. -/
def clean (now : Nat) (config : Config) (entries : List DirEntry) :
    List Event × Except String Unit :=
  ((clean_targets now config.cache_duration entries).map (fun p => Event.fsWrite p), .ok ())

/-! ## The metrics aggregator (src/metrics.rs) -/

/-- `SbomEntry` from src/sbom.rs: one package record of a parsed SBOM. -/
structure SbomEntry where
  name : String
  versionInfo : String
deriving DecidableEq

/-- `Sbom` from src/sbom.rs: the package list of a parsed SBOM. -/
structure Sbom where
  packages : List SbomEntry
deriving DecidableEq

/-- `SourceLabels` from src/metrics.rs. -/
structure SourceLabels where
  image : Option String
  id : Option String
  path : Option String
deriving DecidableEq

/-- `impl From<Source> for SourceLabels`. -/
def sourceLabelsOf : Source → SourceLabels
  | .dockerImage name id => ⟨some name, some id, none⟩
  | .hostDirectory path => ⟨none, none, some path⟩

/-- `SbomLabels` from src/metrics.rs. -/
structure SbomLabels where
  software : String
  version : String
  source : SourceLabels
deriving DecidableEq

/-- `ScanLabels` from src/metrics.rs. -/
structure ScanLabels where
  cve : String
  cvss_base_score : String
  cvss_exploitability_score : String
  cvss_impact_score : String
  severity : String
  urls : String
  software : String
  fixed : String
  fixed_versions : String
  scan_date : String
  title : String
  source : SourceLabels
deriving DecidableEq

/-- The `cvss_fallback` record built in `export_metrics`
(`Decimal::new(0, 1)` for every score). -/
def cvss_fallback : Cvss :=
  { source := "", cvss_type := "", version := "", vector := ""
    metrics := { base_score := ⟨0, 1⟩, exploitability_score := ⟨0, 1⟩, impact_score := ⟨0, 1⟩ } }

/-- `", "`-joining, as `Vec::join(", ")`. -/
def joinComma : List String → String
  | [] => ""
  | [s] => s
  | s :: rest => s ++ ", " ++ joinComma rest

/-- The SBOM-family increments produced for one source's package list:
skip entries with an empty version, otherwise increment the counter at
`(name, version, source labels)` — kept in loop order. -/
def sbomIncLoop (source : Source) : List SbomEntry → List SbomLabels
  | [] => []
  | e :: rest =>
    if e.versionInfo = "" then sbomIncLoop source rest
    else { software := e.name, version := e.versionInfo, source := sourceLabelsOf source }
      :: sbomIncLoop source rest

/-- The label set `export_metrics` derives for one vulnerability match:
the synthesized title, the CVSS triple from the first CVSS record — or
`"undefined"` three times when the list is empty — and the remaining
fields read off the entry. -/
def scanLabelsOf (today : String) (source : Source) (entry : ScanEntry) : ScanLabels :=
  let sl := sourceLabelsOf source
  let title := (match sl.image with | some s => s | none => "") ++ " "
    ++ entry.artifact.name ++ ": " ++ entry.vulnerability.id
  let triple :=
    if !entry.vulnerability.cvss.isEmpty then
      let c := (entry.vulnerability.cvss.head?).getD cvss_fallback
      (c.metrics.base_score.toStr, c.metrics.exploitability_score.toStr,
        c.metrics.impact_score.toStr)
    else ("undefined", "undefined", "undefined")
  { cve := entry.vulnerability.id
    cvss_base_score := triple.1
    cvss_exploitability_score := triple.2.1
    cvss_impact_score := triple.2.2
    severity := entry.vulnerability.severity
    urls := joinComma entry.vulnerability.urls
    software := entry.artifact.name
    fixed := entry.vulnerability.fix.state.toStr
    fixed_versions := joinComma entry.vulnerability.fix.versions
    scan_date := today
    title := title
    source := sl }

/-- The vulnerability-family increments for all scans, in loop order. -/
def scanIncOf (today : String) (scans : List (Source × Scan)) : List ScanLabels :=
  scans.flatMap (fun p => p.2.matches'.map (scanLabelsOf today p.1))

/-- The first loop of `export_metrics`: deserialize each SBOM value
(`serde_json::from_value(..)?` — a failure aborts the whole export) and
concatenate the per-source SBOM-family increments. -/
def collectSbomInc (parseSbom : Value → Except String Sbom) :
    List (Source × Value) → Except String (List SbomLabels)
  | [] => .ok []
  | (s, v) :: rest =>
    match parseSbom v with
    | .error e => .error e
    | .ok sbom =>
      match collectSbomInc parseSbom rest with
      | .error e => .error e
      | .ok l => .ok (sbomIncLoop s sbom.packages ++ l)

/-- The external world seen by `export_metrics`:
`serde_json::from_value` into `Sbom`, the Prometheus text encoder
(a pure function of the registered increments), whether
`create_dir_all` / `File::create` / `write_all` succeed, and today's
UTC date rendered as the `scan_date` label. -/
structure MetricsWorld where
  parseSbom : Value → Except String Sbom
  encode : List SbomLabels → List ScanLabels → String
  dirOk : Bool
  createOk : Bool
  writeOk : Bool
  today : String

/-- `export_metrics` from src/metrics.rs, as a transformer of the
filesystem, seen as a map from path to file content (`none` = absent).
`File::create` truncates the file at `config.metrics_path` to empty as
soon as it succeeds; the increments are then accumulated, the registry
encoded into a buffer, and the buffer written with a single
`write_all`. -/
def export_metrics (mw : MetricsWorld) (config : Config) (sboms : List (Source × Value))
    (scans : List (Source × Scan)) (fs : String → Option String) :
    (String → Option String) × Except String Unit :=
  if !mw.dirOk then (fs, .error "could not create metrics directory")
  else if !mw.createOk then (fs, .error "could not create metrics file")
  else
    let fs1 := fun q => if q = config.metrics_path then some "" else fs q
    match collectSbomInc mw.parseSbom sboms with
    | .error e => (fs1, .error e)
    | .ok sbomInc =>
      let buffer := mw.encode sbomInc (scanIncOf mw.today scans)
      if mw.writeOk then
        (fun q => if q = config.metrics_path then some buffer else fs q, .ok ())
      else (fs1, .error "could not write metrics file")

/-! ## Derived views of the fan-out loops -/

/-- What one loop iteration contributes to the result map: the
key/value pair on success, nothing on a skip or a failure. -/
def bodyStep {ι β : Type} (body : ι → Option (List Event × Except String (Source × β)))
    (x : ι) : Option (Source × β) :=
  match body x with
  | some (_, .ok p) => some p
  | _ => none

/-- Folding one iteration's contribution into the accumulated map. -/
def stepFold {ι β : Type} (body : ι → Option (List Event × Except String (Source × β)))
    (m : List (Source × β)) (x : ι) : List (Source × β) :=
  match bodyStep body x with
  | some (k, v) => mapInsert m k v
  | none => m

/-- What one loop iteration contributes to the event trace: its own
events, followed by the log line on failure. -/
def bodyTrace {ι β : Type} (body : ι → Option (List Event × Except String (Source × β)))
    (x : ι) : List Event :=
  match body x with
  | none => []
  | some (ev, .ok _) => ev
  | some (ev, .error e) => ev ++ [Event.log e]

/-- The map `create_sboms` returns (it always returns `Ok` of this). -/
def sbomMapOf (w : World) (config : Config) (sources : List Source) :
    List (Source × Value) :=
  (fanoutLoop (sbomBody w config) sources []).2

/-- The map `scan` returns when the database refresh proceeds. -/
def scanMapOf (sw : ScanWorld) (sboms : List (Source × Value)) :
    List (Source × Scan) :=
  (fanoutLoop (scanBody sw) sboms []).2

/-- Whether a source is a `DockerImage` (the only variant with a cache
path, hence the only one the passive branch of `create_sboms` touches). -/
def isDocker : Source → Bool
  | .dockerImage _ _ => true
  | .hostDirectory _ => false

/-! ## Concrete instances used to exercise the theorems -/

/-- A docker-image source whose resolution/scan is made to fail below. -/
def srcA : Source := .dockerImage "imgA" "ida"

/-- A docker-image source whose resolution/scan is made to succeed below. -/
def srcB : Source := .dockerImage "imgB" "idb"

/-- An active-mode configuration. -/
def cfgActive : Config := ⟨"/cache", none, 0, [], true⟩

/-- A passive-mode configuration. -/
def cfgPassive : Config := ⟨"/cache", none, 0, [], false⟩

/-- A world where only `srcB`'s cache file is good, everything else fails:
`srcA`'s resolution fails, `srcB`'s succeeds from cache. -/
def wIsolation : World :=
  { cacheFile := fun p =>
      if p = "/cache/sbom/docker/idb.json" then .presentOk (.str "sbomB")
      else .presentBad "corrupt"
    buildxRun := fun _ => .error "no docker"
    syftRun := fun _ => .error "syft failed"
    parseJson := fun _ => .error "unparsable"
    fsWriteOk := fun _ => true
    arch := "x86_64" }

/-- A scan world where scanning the SBOM `"sbomA"` fails and any other
SBOM scans successfully; the database refresh exits zero. -/
def swIsolation : ScanWorld :=
  { update := .exited 0
    grypeRun := fun v => match v with
      | .str "sbomA" => .error "grype crashed"
      | _ => .ok "report"
    parseScan := fun _ => .ok ⟨[]⟩ }

/-- A scan world whose database refresh runs but exits with status 1,
and whose per-SBOM scans succeed. -/
def swNonzero : ScanWorld :=
  { update := .exited 1
    grypeRun := fun _ => .ok "report"
    parseScan := fun _ => .ok ⟨[]⟩ }

/-- A scan world whose database-refresh subprocess cannot be spawned. -/
def swSpawnFail : ScanWorld :=
  { update := .spawnFailed "spawn error"
    grypeRun := fun _ => .ok "report"
    parseScan := fun _ => .ok ⟨[]⟩ }

/-- A world where every cache path holds a present, parseable file. -/
def wCacheHit : World :=
  { cacheFile := fun _ => .presentOk (.str "cached")
    buildxRun := fun _ => .error "no docker"
    syftRun := fun _ => .error "syft failed"
    parseJson := fun _ => .error "unparsable"
    fsWriteOk := fun _ => true
    arch := "x86_64" }

/-- An attestation document carrying an SPDX SBOM for `linux/amd64`. -/
def attestation : Value := .obj [("linux/amd64", .obj [("SPDX", .str "spdxdoc")])]

/-- A world with no cache files where the attestation lookup succeeds
(and the generator would also succeed, were it invoked). -/
def wAttest : World :=
  { cacheFile := fun _ => .absent
    buildxRun := fun _ => .ok "raw"
    syftRun := fun _ => .ok "syftout"
    parseJson := fun s => if s = "raw" then .ok attestation else .ok (.str "generated")
    fsWriteOk := fun _ => true
    arch := "x86_64" }

/-- A world with no cache files where the attestation lookup fails and
the generator succeeds, its stdout parsing to `"generated"`. -/
def wGenerate : World :=
  { cacheFile := fun _ => .absent
    buildxRun := fun _ => .error "attestation lookup failed"
    syftRun := fun _ => .ok "syftout"
    parseJson := fun _ => .ok (.str "generated")
    fsWriteOk := fun _ => true
    arch := "x86_64" }

/-- A world where every cache file is present but corrupt, so active
resolution always falls through to a successful generator run. -/
def wSeq : World :=
  { cacheFile := fun _ => .presentBad "corrupt"
    buildxRun := fun _ => .error "no docker"
    syftRun := fun _ => .ok "syftout"
    parseJson := fun _ => .ok (.str "doc")
    fsWriteOk := fun _ => true
    arch := "x86_64" }

/-- A configuration with an explicit metrics path. -/
def cfgMetrics : Config := ⟨"/cache", some "/out/metrics.prom", 0, [], true⟩

/-- A metrics world whose SBOM deserialization always fails. -/
def mwBadSbom : MetricsWorld :=
  { parseSbom := fun _ => .error "invalid sbom"
    encode := fun _ _ => "ENCODED"
    dirOk := true
    createOk := true
    writeOk := true
    today := "2026-10-12" }

/-- A metrics world where everything succeeds. -/
def mwGood : MetricsWorld :=
  { parseSbom := fun _ => .ok ⟨[]⟩
    encode := fun _ _ => "ENCODED"
    dirOk := true
    createOk := true
    writeOk := true
    today := "2026-10-12" }

/-- A filesystem holding previous content at the metrics path. -/
def fsOld : String → Option String :=
  fun p => if p = "/out/metrics.prom" then some "old content" else none

/-- A sample CVSS record. -/
def cvssSample : Cvss :=
  { source := "nvd", cvss_type := "CVSS", version := "3.1", vector := "AV:N"
    metrics := { base_score := ⟨98, 1⟩, exploitability_score := ⟨39, 1⟩
                 impact_score := ⟨59, 1⟩ } }

/-- A vulnerability match with no CVSS records. -/
def entryNoCvss : ScanEntry :=
  { vulnerability := { id := "CVE-1", severity := "High", urls := []
                       fix := { versions := [], state := .unknown }, cvss := [] }
    artifact := { name := "curl" } }

/-- A vulnerability match with one CVSS record. -/
def entryWithCvss : ScanEntry :=
  { vulnerability := { id := "CVE-2", severity := "Critical", urls := []
                       fix := { versions := [], state := .fixed }, cvss := [cvssSample] }
    artifact := { name := "openssl" } }

/-- A cache-directory entry of a stale JSON file. -/
def entryStale : DirEntry :=
  { path := "/cache/sbom/docker/x.json", metaOk := true, isFile := true
    ext := some "json", accessed := some 0 }

/-- The map built by a fan-out loop is the left fold of the per-item
contributions over the items in order. -/
theorem fanoutLoop_map {ι β : Type}
    (body : ι → Option (List Event × Except String (Source × β))) :
    ∀ (xs : List ι) (acc : List (Source × β)),
      (fanoutLoop body xs acc).2 = xs.foldl (stepFold body) acc := by
  intro xs
  induction xs with
  | nil => intro acc; rfl
  | cons x rest ih =>
    intro acc
    rcases h : body x with _ | ⟨ev, r⟩
    · simp [fanoutLoop, h, List.foldl, stepFold, bodyStep, ih]
    · rcases r with e | ⟨k, v⟩ <;>
        simp [fanoutLoop, h, List.foldl, stepFold, bodyStep, ih]

/-- The trace of a fan-out loop is the concatenation of the per-item
traces in input order: every iteration's events are contiguous, and all
of one item's events precede all of the next item's events. -/
theorem fanoutLoop_trace {ι β : Type}
    (body : ι → Option (List Event × Except String (Source × β))) :
    ∀ (xs : List ι) (acc : List (Source × β)),
      (fanoutLoop body xs acc).1 = xs.flatMap (bodyTrace body) := by
  intro xs
  induction xs with
  | nil => intro acc; rfl
  | cons x rest ih =>
    intro acc
    rcases h : body x with _ | ⟨ev, r⟩
    · simp [fanoutLoop, h, bodyTrace, ih]
    · rcases r with e | ⟨k, v⟩ <;> simp [fanoutLoop, h, bodyTrace, ih]

/-- Lookup after insertion: the inserted key reads back the inserted
value, every other key is untouched. -/
theorem mapGet_insert {β : Type} :
    ∀ (m : List (Source × β)) (k : Source) (v : β) (q : Source),
      mapGet (mapInsert m k v) q = if q = k then some v else mapGet m q := by
  intro m
  induction m with
  | nil =>
    intro k v q
    by_cases hq : q = k
    · simp [mapInsert, mapGet, hq]
    · have hkq : ¬k = q := fun h => hq h.symm
      simp [mapInsert, mapGet, hq, hkq]
  | cons p rest ih =>
    obtain ⟨pk, pv⟩ := p
    intro k v q
    by_cases hk : pk = k
    · by_cases hq : q = k
      · simp [mapInsert, mapGet, hk, hq]
      · have hkq : ¬k = q := fun h => hq h.symm
        simp [mapInsert, mapGet, hk, hq, hkq]
    · by_cases hq : pk = q
      · have hqk : ¬q = k := fun h => hk (hq.trans h)
        simp [mapInsert, mapGet, hk, hq, hqk]
      · simp [mapInsert, mapGet, hk, hq, ih]

/-- A key no iteration successfully produces stays absent through the fold. -/
theorem foldl_get_none {ι β : Type}
    (body : ι → Option (List Event × Except String (Source × β))) (K : Source) :
    ∀ (xs : List ι) (acc : List (Source × β)),
      (∀ x ∈ xs, ∀ v, bodyStep body x ≠ some (K, v)) →
      mapGet acc K = none →
      mapGet (xs.foldl (stepFold body) acc) K = none := by
  intro xs
  induction xs with
  | nil => intro acc _ hacc; simpa using hacc
  | cons x rest ih =>
    intro acc hx hacc
    simp only [List.foldl]
    refine ih _ (fun y hy v => hx y (List.mem_cons_of_mem x hy) v) ?_
    rcases h : bodyStep body x with _ | ⟨k, v⟩
    · simpa [stepFold, h] using hacc
    · have hk : ¬k = K := by
        intro hkK
        exact hx x (List.mem_cons_self x rest) v (by simpa [hkK] using h)
      have hKk : ¬K = k := fun hh => hk hh.symm
      simp [stepFold, h, mapGet_insert, hacc, hKk]

/-- A key bound to `V`, for which every successful iteration can only
rebind `V`, stays bound to `V` through the fold. -/
theorem foldl_get_keep {ι β : Type}
    (body : ι → Option (List Event × Except String (Source × β))) (K : Source) (V : β) :
    ∀ (xs : List ι) (acc : List (Source × β)),
      (∀ x ∈ xs, ∀ v, bodyStep body x = some (K, v) → v = V) →
      mapGet acc K = some V →
      mapGet (xs.foldl (stepFold body) acc) K = some V := by
  intro xs
  induction xs with
  | nil => intro acc _ hacc; simpa using hacc
  | cons x rest ih =>
    intro acc hx hacc
    simp only [List.foldl]
    refine ih _ (fun y hy v hv => hx y (List.mem_cons_of_mem x hy) v hv) ?_
    rcases h : bodyStep body x with _ | ⟨k, v⟩
    · simpa [stepFold, h] using hacc
    · by_cases hk : k = K
      · have hv : v = V := hx x (List.mem_cons_self x rest) v (by simpa [hk] using h)
        simp [stepFold, h, mapGet_insert, hk, hv]
      · have hKk : ¬K = k := fun hh => hk hh.symm
        simp [stepFold, h, mapGet_insert, hacc, hKk]

/-- A key some iteration successfully binds to `V`, and which no
iteration can bind to anything else, ends up bound to `V`. -/
theorem foldl_get_set {ι β : Type}
    (body : ι → Option (List Event × Except String (Source × β))) (K : Source) (V : β) :
    ∀ (xs : List ι) (acc : List (Source × β)) (y : ι), y ∈ xs →
      bodyStep body y = some (K, V) →
      (∀ x ∈ xs, ∀ v, bodyStep body x = some (K, v) → v = V) →
      mapGet (xs.foldl (stepFold body) acc) K = some V := by
  intro xs
  induction xs with
  | nil => intro acc y hy; exact absurd hy (List.not_mem_nil y)
  | cons x rest ih =>
    intro acc y hy hstep hall
    rcases List.mem_cons.mp hy with hyx | hyr
    · subst hyx
      simp only [List.foldl]
      refine foldl_get_keep body K V rest _
        (fun z hz v hv => hall z (List.mem_cons_of_mem y hz) v hv) ?_
      simp [stepFold, hstep, mapGet_insert]
    · simp only [List.foldl]
      exact ih _ y hyr hstep (fun z hz v hv => hall z (List.mem_cons_of_mem x hz) v hv)

/-- `create_sboms` never fails: it returns `Ok` of the collected map. -/
theorem create_sboms_ok (w : World) (config : Config) (sources : List Source) :
    (create_sboms w config sources).2 = .ok (sbomMapOf w config sources) := rfl

/-- When the refresh subprocess spawns and is waited on successfully,
`scan` returns `Ok` of the collected map — whatever the exit status. -/
theorem scan_ok (sw : ScanWorld) (sboms : List (Source × Value)) (st : Nat)
    (h : sw.update = .exited st) :
    (scan sw sboms).2 = .ok (scanMapOf sw sboms) := by
  simp [scan, h, scanMapOf]

/-- `Except.map` into `ok` comes from `ok`. -/
theorem except_map_ok {α γ : Type} (f : α → γ) (r : Except String α) (b : γ)
    (h : r.map f = .ok b) : ∃ a, r = .ok a ∧ b = f a := by
  rcases r with e | a
  · simp [Except.map] at h
  · simp [Except.map] at h
    exact ⟨a, rfl, h.symm⟩

/-- A successful `create_sbom` pairs the result with its own source. -/
theorem create_sbom_fst (w : World) (c : Config) (s : Source) (p : Source × Value)
    (h : (create_sbom w c s).2 = .ok p) : p.1 = s := by
  unfold create_sbom at h
  obtain ⟨a, _, hb⟩ := except_map_ok _ _ _ h
  rw [hb]

/-- A successful SBOM-loop iteration binds the iterated source itself. -/
theorem sbomBody_step_key (w : World) (c : Config) (x : Source) (k : Source) (v : Value)
    (h : bodyStep (sbomBody w c) x = some (k, v)) : k = x := by
  unfold bodyStep sbomBody at h
  by_cases hg : c.generate_sboms
  · simp only [hg, if_true] at h
    rcases hr : (create_sbom w c x).2 with e | p
    · simp [hr, Except.mapError] at h
    · simp [hr, Except.mapError] at h
      have := create_sbom_fst w c x p hr
      rw [h] at this
      exact this
  · rcases x with ⟨name, id⟩ | ⟨path⟩
    · simp only [hg, if_false, Config.sbom_path, Bool.false_eq_true] at h
      rcases hgs : (get_sbom w name (c.base_path ++ "/sbom/docker/" ++ id ++ ".json")).2
        with e | v0 <;> simp [hgs] at h
      exact h.1.symm
    · simp [hg, Config.sbom_path] at h

/-- In active mode, a failed `create_sbom` contributes nothing. -/
theorem sbomBody_step_err (w : World) (c : Config) (x : Source) (e : String)
    (hg : c.generate_sboms = true) (h : (create_sbom w c x).2 = .error e) :
    bodyStep (sbomBody w c) x = none := by
  simp [bodyStep, sbomBody, hg, h, Except.mapError]

/-- In active mode, a successful `create_sbom` contributes its pair. -/
theorem sbomBody_step_succ (w : World) (c : Config) (x : Source) (p : Source × Value)
    (hg : c.generate_sboms = true) (h : (create_sbom w c x).2 = .ok p) :
    bodyStep (sbomBody w c) x = some p := by
  simp [bodyStep, sbomBody, hg, h, Except.mapError]

/-- A successful scan-loop iteration binds the iterated pair's source. -/
theorem scanBody_step_key (sw : ScanWorld) (x : Source × Value) (k : Source) (v : Scan)
    (h : bodyStep (scanBody sw) x = some (k, v)) : k = x.1 := by
  unfold bodyStep scanBody scan_single at h
  rcases hr : sw.grypeRun x.2 with e | out
  · simp [hr, Except.mapError] at h
  · rcases hp : sw.parseScan out with e | sc <;> simp [hr, hp, Except.mapError] at h
    exact h.1.symm

/-- A failed `scan_single` contributes nothing. -/
theorem scanBody_step_err (sw : ScanWorld) (x : Source × Value) (e : String)
    (h : (scan_single sw x.1 x.2).2 = .error e) :
    bodyStep (scanBody sw) x = none := by
  simp [bodyStep, scanBody, h, Except.mapError]

/-- A successful `scan_single` contributes its pair. -/
theorem scanBody_step_succ (sw : ScanWorld) (x : Source × Value) (p : Source × Scan)
    (h : (scan_single sw x.1 x.2).2 = .ok p) :
    bodyStep (scanBody sw) x = some p := by
  simp [bodyStep, scanBody, h, Except.mapError]

/-- In a list whose keys are pairwise distinct, a key determines its value. -/
theorem nodup_keys_eq {β : Type} :
    ∀ (l : List (Source × β)) (A : Source) (v1 v2 : β),
      (l.map Prod.fst).Nodup → (A, v1) ∈ l → (A, v2) ∈ l → v1 = v2 := by
  intro l
  induction l with
  | nil => intro A v1 v2 _ h1; exact absurd h1 (List.not_mem_nil _)
  | cons p rest ih =>
    intro A v1 v2 hnd h1 h2
    rw [List.map_cons, List.nodup_cons] at hnd
    rcases List.mem_cons.mp h1 with e1 | m1 <;> rcases List.mem_cons.mp h2 with e2 | m2
    · rw [← e2] at e1
      exact congrArg Prod.snd e1
    · exfalso
      apply hnd.1
      rw [← e1]
      exact List.mem_map.mpr ⟨(A, v2), m2, rfl⟩
    · exfalso
      apply hnd.1
      rw [← e2]
      exact List.mem_map.mpr ⟨(A, v1), m1, rfl⟩
    · exact ih A v1 v2 hnd.2 m1 m2

/-- C1: partial failure isolation holds in both fan-out stages and in
every batch, active or passive — for every pair of distinct sources `A`
and `B`, if `A`'s resolution fails (the per-source loop body of
`create_sboms`, which wraps active-mode `create_sbom` and passive-mode
`get_sbom` alike, yields an error) while `B`'s succeeds, and likewise
if scanning `A` fails while `B` succeeds, the returned map contains
`B`'s entry, omits `A`, and the stage returns without error. -/
theorem c1_partial_failure_isolation :
    (∀ (w : World) (c : Config) (sources : List Source) (A B : Source)
        (evA : List Event) (eA : String) (evB : List Event) (vB : Value),
      A ∈ sources → B ∈ sources → A ≠ B →
      sbomBody w c A = some (evA, .error eA) →
      sbomBody w c B = some (evB, .ok (B, vB)) →
      (create_sboms w c sources).2 = .ok (sbomMapOf w c sources) ∧
      mapGet (sbomMapOf w c sources) A = none ∧
      mapGet (sbomMapOf w c sources) B = some vB) ∧
    (∀ (sw : ScanWorld) (sboms : List (Source × Value)) (st : Nat)
        (A B : Source) (vA vB : Value) (eA : String) (sc : Scan),
      sw.update = .exited st →
      (sboms.map Prod.fst).Nodup →
      (A, vA) ∈ sboms → (B, vB) ∈ sboms → A ≠ B →
      (scan_single sw A vA).2 = .error eA →
      (scan_single sw B vB).2 = .ok (B, sc) →
      (scan sw sboms).2 = .ok (scanMapOf sw sboms) ∧
      mapGet (scanMapOf sw sboms) A = none ∧
      mapGet (scanMapOf sw sboms) B = some sc) := by
  constructor
  · intro w c sources A B evA eA evB vB hA hB hAB herr hok
    have hstepB : bodyStep (sbomBody w c) B = some (B, vB) := by
      simp [bodyStep, hok]
    refine ⟨create_sboms_ok w c sources, ?_, ?_⟩
    · rw [sbomMapOf, fanoutLoop_map]
      refine foldl_get_none _ A sources [] ?_ rfl
      intro x hx v hstep
      have hk := sbomBody_step_key w c x A v hstep
      subst hk
      simp [bodyStep, herr] at hstep
    · rw [sbomMapOf, fanoutLoop_map]
      refine foldl_get_set _ B vB sources [] B hB hstepB ?_
      intro x hx v hstep
      have hk := sbomBody_step_key w c x B v hstep
      subst hk
      rw [hstepB] at hstep
      exact (congrArg Prod.snd (Option.some.inj hstep)).symm
  · intro sw sboms st A B vA vB eA sc hup hnd hA hB hAB herr hok
    refine ⟨scan_ok sw sboms st hup, ?_, ?_⟩
    · rw [scanMapOf, fanoutLoop_map]
      refine foldl_get_none _ A sboms [] ?_ rfl
      intro x hx v hstep
      have hk := scanBody_step_key sw x A v hstep
      have hx2 : (A, x.2) = x := by rw [hk]
      have hmem : (A, x.2) ∈ sboms := by rw [hx2]; exact hx
      have hveq : x.2 = vA := nodup_keys_eq sboms A x.2 vA hnd hmem hA
      have hstepA : bodyStep (scanBody sw) x = none := by
        apply scanBody_step_err sw x eA
        rw [← hk, hveq]
        exact herr
      rw [hstepA] at hstep
      exact Option.noConfusion hstep
    · rw [scanMapOf, fanoutLoop_map]
      refine foldl_get_set _ B sc sboms [] (B, vB) hB
        (scanBody_step_succ sw (B, vB) (B, sc) hok) ?_
      intro x hx v hstep
      have hk := scanBody_step_key sw x B v hstep
      have hx2 : (B, x.2) = x := by rw [hk]
      have hmem : (B, x.2) ∈ sboms := by rw [hx2]; exact hx
      have hveq : x.2 = vB := nodup_keys_eq sboms B x.2 vB hnd hmem hB
      have hsucc : bodyStep (scanBody sw) x = some (B, sc) := by
        apply scanBody_step_succ sw x (B, sc)
        rw [← hk, hveq]
        exact hok
      rw [hsucc] at hstep
      exact (congrArg Prod.snd (Option.some.inj hstep)).symm

/-- C1 witness: the isolation theorem applied to concrete two-source
batches where `srcA` fails and `srcB` succeeds — an active-mode batch,
a passive-mode batch, and a scan batch. -/
theorem c1_partial_failure_isolation_witness :
    ((create_sboms wIsolation cfgActive [srcA, srcB]).2
        = .ok (sbomMapOf wIsolation cfgActive [srcA, srcB]) ∧
      mapGet (sbomMapOf wIsolation cfgActive [srcA, srcB]) srcA = none ∧
      mapGet (sbomMapOf wIsolation cfgActive [srcA, srcB]) srcB = some (.str "sbomB")) ∧
    ((create_sboms wIsolation cfgPassive [srcA, srcB]).2
        = .ok (sbomMapOf wIsolation cfgPassive [srcA, srcB]) ∧
      mapGet (sbomMapOf wIsolation cfgPassive [srcA, srcB]) srcA = none ∧
      mapGet (sbomMapOf wIsolation cfgPassive [srcA, srcB]) srcB = some (.str "sbomB")) ∧
    ((scan swIsolation [(srcA, .str "sbomA"), (srcB, .str "sbomB")]).2
        = .ok (scanMapOf swIsolation [(srcA, .str "sbomA"), (srcB, .str "sbomB")]) ∧
      mapGet (scanMapOf swIsolation [(srcA, .str "sbomA"), (srcB, .str "sbomB")]) srcA
        = none ∧
      mapGet (scanMapOf swIsolation [(srcA, .str "sbomA"), (srcB, .str "sbomB")]) srcB
        = some ⟨[]⟩) :=
  ⟨c1_partial_failure_isolation.1 wIsolation cfgActive [srcA, srcB] srcA srcB
      [Event.spawn (.syft (syft_args cfgActive srcA "imgA")),
        Event.exit (.syft (syft_args cfgActive srcA "imgA"))]
      "Error creating sbom: syft failed" [] (.str "sbomB")
      (List.mem_cons_self srcA [srcB])
      (List.mem_cons_of_mem srcA (List.mem_cons_self srcB [])) (by decide) rfl rfl,
    c1_partial_failure_isolation.1 wIsolation cfgPassive [srcA, srcB] srcA srcB
      [] "Error loading sbom: corrupt" [] (.str "sbomB")
      (List.mem_cons_self srcA [srcB])
      (List.mem_cons_of_mem srcA (List.mem_cons_self srcB [])) (by decide) rfl rfl,
    c1_partial_failure_isolation.2 swIsolation
      [(srcA, .str "sbomA"), (srcB, .str "sbomB")] 0 srcA srcB
      (.str "sbomA") (.str "sbomB") "grype crashed" ⟨[]⟩ rfl (by decide)
      (List.mem_cons_self _ _) (List.mem_cons_of_mem _ (List.mem_cons_self _ _))
      (by decide) rfl rfl⟩

/-- The trace one scan-loop iteration emits: the scanner's spawn and
exit for the iterated SBOM, possibly followed by a log line. -/
theorem scan_bodyTrace_events (sw : ScanWorld) (x : Source × Value) :
    bodyTrace (scanBody sw) x
        = [Event.spawn (.grype x.2), Event.exit (.grype x.2)] ∨
      ∃ m, bodyTrace (scanBody sw) x
        = [Event.spawn (.grype x.2), Event.exit (.grype x.2), Event.log m] := by
  rcases hr : sw.grypeRun x.2 with e | out
  · exact .inr ⟨"Failed to scan an sbom: " ++ e,
      by simp [bodyTrace, scanBody, scan_single, hr, Except.mapError]⟩
  · rcases hp : sw.parseScan out with e | sc
    · exact .inr ⟨"Failed to scan an sbom: " ++ e,
        by simp [bodyTrace, scanBody, scan_single, hr, hp, Except.mapError]⟩
    · exact .inl (by simp [bodyTrace, scanBody, scan_single, hr, hp, Except.mapError])

/-- The per-SBOM portion of `scan`'s trace never spawns the
database-refresh subprocess again. -/
theorem scan_no_second_refresh (sw : ScanWorld) (sboms : List (Source × Value)) :
    Event.spawn Proc.grypeUpdate ∉ sboms.flatMap (bodyTrace (scanBody sw)) := by
  intro h
  obtain ⟨x, _, hmem⟩ := List.mem_flatMap.mp h
  rcases scan_bodyTrace_events sw x with he | ⟨m, he⟩ <;> rw [he] at hmem <;>
    simp at hmem

/-- C2 counterexample: a batch whose database refresh runs and exits
with status 1 (nonzero).  The claim says `scan` must return an error
and perform no per-source scan; instead the exit status is discarded —
`scan` spawns the scanner for the SBOM and returns `Ok` with the
scanned entry in the map. -/
theorem c2_refresh_exit_ignored_counterexample :
    scan swNonzero [(srcA, Value.null)]
      = ([Event.spawn Proc.grypeUpdate, Event.exit Proc.grypeUpdate,
          Event.spawn (Proc.grype Value.null), Event.exit (Proc.grype Value.null)],
         .ok [(srcA, ⟨[]⟩)]) := rfl

/-- C2 amended: `scan` performs the database refresh exactly once,
synchronously, before any per-source scan; a failure to spawn or wait
on the refresh subprocess is fatal (error returned, no per-source scan
spawned); but the refresh's exit status is received and discarded, so a
refresh that exits nonzero does not abort the batch — scanning proceeds
and `scan` returns the collected map. -/
theorem c2_refresh_once_osfailure_fatal (sw : ScanWorld) (sboms : List (Source × Value)) :
    (∀ e, sw.update = .spawnFailed e →
      scan sw sboms = ([Event.spawn Proc.grypeUpdate], .error e)) ∧
    (∀ e, sw.update = .waitFailed e →
      scan sw sboms = ([Event.spawn Proc.grypeUpdate], .error e)) ∧
    (∀ st, sw.update = .exited st →
      (scan sw sboms).1
          = Event.spawn Proc.grypeUpdate :: Event.exit Proc.grypeUpdate ::
            sboms.flatMap (bodyTrace (scanBody sw)) ∧
      (scan sw sboms).2 = .ok (scanMapOf sw sboms)) ∧
    Event.spawn Proc.grypeUpdate ∉ sboms.flatMap (bodyTrace (scanBody sw)) := by
  refine ⟨?_, ?_, ?_, scan_no_second_refresh sw sboms⟩
  · intro e h; simp [scan, h]
  · intro e h; simp [scan, h]
  · intro st h
    constructor
    · simp [scan, h, fanoutLoop_trace]
    · simp [scan, h, scanMapOf]

/-- C2 amendment witness: the amended theorem applied to concrete scan
worlds — a spawn failure is fatal, a nonzero exit status is not. -/
theorem c2_refresh_once_osfailure_fatal_witness :
    scan swSpawnFail [(srcA, Value.null)]
      = ([Event.spawn Proc.grypeUpdate], .error "spawn error") ∧
    (scan swNonzero [(srcA, Value.null)]).1
      = Event.spawn Proc.grypeUpdate :: Event.exit Proc.grypeUpdate ::
        [(srcA, Value.null)].flatMap (bodyTrace (scanBody swNonzero)) ∧
    (scan swNonzero [(srcA, Value.null)]).2
      = .ok (scanMapOf swNonzero [(srcA, Value.null)]) :=
  ⟨(c2_refresh_once_osfailure_fatal swSpawnFail [(srcA, Value.null)]).1
      "spawn error" rfl,
    ((c2_refresh_once_osfailure_fatal swNonzero [(srcA, Value.null)]).2.2.1 1 rfl).1,
    ((c2_refresh_once_osfailure_fatal swNonzero [(srcA, Value.null)]).2.2.1 1 rfl).2⟩

/-- C3: cache-hit idempotence — a `DockerImage` source whose cache path
(a function of the image id only) holds a present, parseable file is
resolved with no subprocess at all (empty event trace) to exactly the
parsed cache content, both through `create_sbom` (active mode) and
through `get_sbom` directly (passive mode). -/
theorem c3_cache_hit_idempotence (w : World) (c : Config) (name id : String) (v : Value)
    (h : w.cacheFile (c.base_path ++ "/sbom/docker/" ++ id ++ ".json") = .presentOk v) :
    create_sbom w c (.dockerImage name id)
        = ([], .ok (.dockerImage name id, v)) ∧
    get_sbom w name (c.base_path ++ "/sbom/docker/" ++ id ++ ".json")
        = ([], .ok v) ∧
    ∀ otherName, c.sbom_path (.dockerImage otherName id)
        = c.sbom_path (.dockerImage name id) := by
  refine ⟨?_, ?_, ?_⟩
  · simp [create_sbom, create_sbom_result, Config.sbom_path, get_sbom, h, Except.map]
  · simp [get_sbom, h]
  · intro otherName
    simp [Config.sbom_path]

/-- C3 witness: a concrete cache hit resolves with no subprocess to the
cached document, and the cache path ignores the image name. -/
theorem c3_cache_hit_idempotence_witness :
    create_sbom wCacheHit cfgActive (.dockerImage "nginx" "abc")
        = ([], .ok (.dockerImage "nginx" "abc", .str "cached")) ∧
    get_sbom wCacheHit "nginx" (cfgActive.base_path ++ "/sbom/docker/" ++ "abc" ++ ".json")
        = ([], .ok (.str "cached")) ∧
    cfgActive.sbom_path (.dockerImage "other" "abc")
        = cfgActive.sbom_path (.dockerImage "nginx" "abc") :=
  ⟨(c3_cache_hit_idempotence wCacheHit cfgActive "nginx" "abc" (.str "cached") rfl).1,
    (c3_cache_hit_idempotence wCacheHit cfgActive "nginx" "abc" (.str "cached") rfl).2.1,
    (c3_cache_hit_idempotence wCacheHit cfgActive "nginx" "abc" (.str "cached") rfl).2.2
      "other"⟩

/-- C4 counterexample: a `DockerImage` source with no present cache
file (the cache is `absent`) whose attestation lookup succeeds.  The
claim says active-mode resolution must invoke the external generator
and return the parse of the generator's stdout; instead the resolution
spawns only the attestation-lookup subprocess (no `Proc.syft` event
appears in the trace) and returns the embedded attestation document
`"spdxdoc"`, not the generator's output (which would parse to
`"generated"` in this world). -/
theorem c4_attestation_shortcircuit_counterexample :
    create_sbom wAttest cfgActive (.dockerImage "nginx:latest" "sha256abc")
      = ([Event.spawn (Proc.buildx "nginx:latest"), Event.exit (Proc.buildx "nginx:latest")],
         .ok (.dockerImage "nginx:latest" "sha256abc", .str "spdxdoc")) := rfl

/-- C4 amended: in active mode, for a `HostDirectory` source (which has
no cache path) and for a `DockerImage` source with no present cache
file whose attestation lookup also fails, resolution invokes the
generator against the target (path, respectively image name), persists
the raw stdout at the cache path when one exists, and returns the parse
of the generator's stdout; but a `DockerImage` source whose `get_sbom`
read succeeds (cached file or attestation) is returned as-is without
invoking the generator. -/
theorem c4_generator_on_miss (w : World) (c : Config) :
    (∀ path out,
      w.syftRun (syft_args c (.hostDirectory path) path) = .ok out →
      create_sbom w c (.hostDirectory path)
        = ([Event.spawn (.syft (syft_args c (.hostDirectory path) path)),
            Event.exit (.syft (syft_args c (.hostDirectory path) path))],
           (w.parseJson out).map (fun v => (.hostDirectory path, v)))) ∧
    (∀ name id e out,
      w.cacheFile (c.base_path ++ "/sbom/docker/" ++ id ++ ".json") = .absent →
      (get_sbom w name (c.base_path ++ "/sbom/docker/" ++ id ++ ".json")).2 = .error e →
      w.syftRun (syft_args c (.dockerImage name id) name) = .ok out →
      w.fsWriteOk (c.base_path ++ "/sbom/docker/" ++ id ++ ".json") = true →
      create_sbom w c (.dockerImage name id)
        = ((get_sbom w name (c.base_path ++ "/sbom/docker/" ++ id ++ ".json")).1
            ++ [Event.spawn (.syft (syft_args c (.dockerImage name id) name)),
                Event.exit (.syft (syft_args c (.dockerImage name id) name)),
                Event.fsWrite (c.base_path ++ "/sbom/docker/" ++ id ++ ".json")],
           (w.parseJson out).map (fun v => (.dockerImage name id, v)))) ∧
    (∀ name id v,
      (get_sbom w name (c.base_path ++ "/sbom/docker/" ++ id ++ ".json")).2 = .ok v →
      create_sbom w c (.dockerImage name id)
        = ((get_sbom w name (c.base_path ++ "/sbom/docker/" ++ id ++ ".json")).1,
           .ok (.dockerImage name id, v))) := by
  refine ⟨?_, ?_, ?_⟩
  · intro path out hout
    have hrs : run_syft w c (.hostDirectory path) path none
        = ([Event.spawn (.syft (syft_args c (.hostDirectory path) path)),
            Event.exit (.syft (syft_args c (.hostDirectory path) path))],
           w.parseJson out) := by
      rcases hp : w.parseJson out with e | v <;> simp [run_syft, hout, hp]
    simp [create_sbom, create_sbom_result, Config.sbom_path, hrs]
  · intro name id e out _ hge hout hwr
    have hrs : run_syft w c (.dockerImage name id) name
          (some (c.base_path ++ "/sbom/docker/" ++ id ++ ".json"))
        = ([Event.spawn (.syft (syft_args c (.dockerImage name id) name)),
            Event.exit (.syft (syft_args c (.dockerImage name id) name)),
            Event.fsWrite (c.base_path ++ "/sbom/docker/" ++ id ++ ".json")],
           w.parseJson out) := by
      rcases hp : w.parseJson out with e1 | v <;> simp [run_syft, hout, hwr, hp]
    simp [create_sbom, create_sbom_result, Config.sbom_path, hge, hrs]
  · intro name id v hok
    simp [create_sbom, create_sbom_result, Config.sbom_path, hok, Except.map]

/-- C4 amendment witness: the amended theorem at concrete worlds — a
host directory and a docker image without attestation go through the
generator; a docker image with a good attestation does not. -/
theorem c4_generator_on_miss_witness :
    create_sbom wGenerate cfgActive (.hostDirectory "/srv")
        = ([Event.spawn (.syft (syft_args cfgActive (.hostDirectory "/srv") "/srv")),
            Event.exit (.syft (syft_args cfgActive (.hostDirectory "/srv") "/srv"))],
           (wGenerate.parseJson "syftout").map (fun v => (.hostDirectory "/srv", v))) ∧
    create_sbom wGenerate cfgActive (.dockerImage "img" "id1")
        = ((get_sbom wGenerate "img"
              (cfgActive.base_path ++ "/sbom/docker/" ++ "id1" ++ ".json")).1
            ++ [Event.spawn (.syft (syft_args cfgActive (.dockerImage "img" "id1") "img")),
                Event.exit (.syft (syft_args cfgActive (.dockerImage "img" "id1") "img")),
                Event.fsWrite (cfgActive.base_path ++ "/sbom/docker/" ++ "id1" ++ ".json")],
           (wGenerate.parseJson "syftout").map (fun v => (.dockerImage "img" "id1", v))) ∧
    create_sbom wAttest cfgActive (.dockerImage "nginx:latest" "sha256abc")
        = ((get_sbom wAttest "nginx:latest"
              (cfgActive.base_path ++ "/sbom/docker/" ++ "sha256abc" ++ ".json")).1,
           .ok (.dockerImage "nginx:latest" "sha256abc", .str "spdxdoc")) :=
  ⟨(c4_generator_on_miss wGenerate cfgActive).1 "/srv" "syftout" rfl,
    (c4_generator_on_miss wGenerate cfgActive).2.1 "img" "id1"
      "attestation lookup failed" "syftout" rfl rfl rfl rfl,
    (c4_generator_on_miss wAttest cfgActive).2.2 "nginx:latest" "sha256abc"
      (.str "spdxdoc") rfl⟩

/-- C5 counterexample: a run whose metrics file holds previous content
and whose single SBOM value fails to deserialize
(`serde_json::from_value(..)?`).  The claim says that on error the
previously existing metrics file content is left unchanged; instead
`File::create` has already truncated it, so `export_metrics` returns
the error with the metrics file now empty rather than holding
`"old content"`. -/
theorem c5_truncation_counterexample :
    (export_metrics mwBadSbom cfgMetrics [(srcA, Value.null)] [] fsOld).2
        = .error "invalid sbom" ∧
    (export_metrics mwBadSbom cfgMetrics [(srcA, Value.null)] [] fsOld).1 "/out/metrics.prom"
        = some "" ∧
    fsOld "/out/metrics.prom" = some "old content" ∧
    ¬ ((export_metrics mwBadSbom cfgMetrics [(srcA, Value.null)] [] fsOld).1 "/out/metrics.prom"
        = fsOld "/out/metrics.prom") :=
  ⟨rfl, rfl, rfl, by decide⟩

/-- C5 amended: `export_metrics` encodes the registry once, after all
sources are processed, and performs a single content write — on a fully
successful run the metrics file holds exactly the complete encoded
registry; but the metrics file is created (truncated to empty) before
the SBOMs are deserialized, so an error after that point leaves the
file empty instead of preserving its previous content.  Paths other
than the metrics path are never touched. -/
theorem c5_export_once_truncates (mw : MetricsWorld) (c : Config)
    (sboms : List (Source × Value)) (scans : List (Source × Scan))
    (fs : String → Option String) :
    (∀ S, collectSbomInc mw.parseSbom sboms = .ok S →
      mw.dirOk = true → mw.createOk = true → mw.writeOk = true →
      (export_metrics mw c sboms scans fs).2 = .ok () ∧
      (export_metrics mw c sboms scans fs).1 c.metrics_path
        = some (mw.encode S (scanIncOf mw.today scans))) ∧
    (∀ e, mw.dirOk = true → mw.createOk = true →
      (export_metrics mw c sboms scans fs).2 = .error e →
      (export_metrics mw c sboms scans fs).1 c.metrics_path = some "") ∧
    (∀ q, q ≠ c.metrics_path →
      (export_metrics mw c sboms scans fs).1 q = fs q) := by
  refine ⟨?_, ?_, ?_⟩
  · intro S hS hdir hcreate hwrite
    constructor <;> simp [export_metrics, hdir, hcreate, hS, hwrite]
  · intro e hdir hcreate herr
    rcases hS : collectSbomInc mw.parseSbom sboms with e1 | S
    · simp [export_metrics, hdir, hcreate, hS]
    · rcases hw : mw.writeOk
      · simp [export_metrics, hdir, hcreate, hS, hw]
      · simp [export_metrics, hdir, hcreate, hS, hw] at herr
  · intro q hq
    rcases hdir : mw.dirOk
    · simp [export_metrics, hdir]
    · rcases hcreate : mw.createOk
      · simp [export_metrics, hdir, hcreate]
      · rcases hS : collectSbomInc mw.parseSbom sboms with e1 | S
        · simp [export_metrics, hdir, hcreate, hS, hq]
        · rcases hw : mw.writeOk <;>
            simp [export_metrics, hdir, hcreate, hS, hw, hq]

/-- C5 amendment witness: a fully successful run writes the encoded
registry; a run with an undeserializable SBOM leaves the file empty;
other paths are untouched. -/
theorem c5_export_once_truncates_witness :
    ((export_metrics mwGood cfgMetrics [(srcA, Value.null)] [] fsOld).2 = .ok () ∧
      (export_metrics mwGood cfgMetrics [(srcA, Value.null)] [] fsOld).1
          cfgMetrics.metrics_path
        = some (mwGood.encode [] (scanIncOf mwGood.today []))) ∧
    (export_metrics mwBadSbom cfgMetrics [(srcA, Value.null)] [] fsOld).1
        cfgMetrics.metrics_path = some "" ∧
    (export_metrics mwBadSbom cfgMetrics [(srcA, Value.null)] [] fsOld).1 "/cache/other"
        = fsOld "/cache/other" :=
  ⟨(c5_export_once_truncates mwGood cfgMetrics [(srcA, Value.null)] [] fsOld).1
      [] rfl rfl rfl rfl,
    (c5_export_once_truncates mwBadSbom cfgMetrics [(srcA, Value.null)] [] fsOld).2.1
      "invalid sbom" rfl rfl rfl,
    (c5_export_once_truncates mwBadSbom cfgMetrics [(srcA, Value.null)] [] fsOld).2.2
      "/cache/other" (by decide)⟩

/-- C6: CVSS label derivation — a vulnerability with an empty CVSS list
produces exactly the string `"undefined"` for the three score labels; a
non-empty list produces the decimal strings of the first record's
scores.  The last conjunct records that `export_metrics`' vulnerability
family derives exactly these labels for each match. -/
theorem c6_cvss_label_derivation (today : String) (src : Source) (entry : ScanEntry) :
    (entry.vulnerability.cvss = [] →
      (scanLabelsOf today src entry).cvss_base_score = "undefined" ∧
      (scanLabelsOf today src entry).cvss_exploitability_score = "undefined" ∧
      (scanLabelsOf today src entry).cvss_impact_score = "undefined") ∧
    (∀ c0 rest, entry.vulnerability.cvss = c0 :: rest →
      (scanLabelsOf today src entry).cvss_base_score = c0.metrics.base_score.toStr ∧
      (scanLabelsOf today src entry).cvss_exploitability_score
        = c0.metrics.exploitability_score.toStr ∧
      (scanLabelsOf today src entry).cvss_impact_score = c0.metrics.impact_score.toStr) ∧
    scanIncOf today [(src, ⟨[entry]⟩)] = [scanLabelsOf today src entry] := by
  refine ⟨?_, ?_, by simp [scanIncOf]⟩
  · intro h
    refine ⟨?_, ?_, ?_⟩ <;> simp [scanLabelsOf, h]
  · intro c0 rest h
    refine ⟨?_, ?_, ?_⟩ <;> simp [scanLabelsOf, h]

/-- C6 witness: the derivation theorem at a match with no CVSS record
and at a match with one. -/
theorem c6_cvss_label_derivation_witness :
    ((scanLabelsOf "2026-10-12" srcA entryNoCvss).cvss_base_score = "undefined" ∧
      (scanLabelsOf "2026-10-12" srcA entryNoCvss).cvss_exploitability_score
        = "undefined" ∧
      (scanLabelsOf "2026-10-12" srcA entryNoCvss).cvss_impact_score = "undefined") ∧
    ((scanLabelsOf "2026-10-12" srcA entryWithCvss).cvss_base_score
        = cvssSample.metrics.base_score.toStr ∧
      (scanLabelsOf "2026-10-12" srcA entryWithCvss).cvss_exploitability_score
        = cvssSample.metrics.exploitability_score.toStr ∧
      (scanLabelsOf "2026-10-12" srcA entryWithCvss).cvss_impact_score
        = cvssSample.metrics.impact_score.toStr) :=
  ⟨(c6_cvss_label_derivation "2026-10-12" srcA entryNoCvss).1 rfl,
    (c6_cvss_label_derivation "2026-10-12" srcA entryWithCvss).2.1 cvssSample [] rfl⟩

/-- C7: the SBOM counter family receives exactly one increment per
package entry with a non-empty version (labeled with name, version and
the source-attribution labels) and none for entries with an empty
version: the increments of one source's package list are exactly the
non-empty-version entries, in order, mapped to their labels. -/
theorem c7_sbom_family_increments (src : Source) (pkgs : List SbomEntry) :
    sbomIncLoop src pkgs
      = (pkgs.filter (fun e => !(e.versionInfo = ""))).map
          (fun e => { software := e.name, version := e.versionInfo
                      source := sourceLabelsOf src }) := by
  induction pkgs with
  | nil => rfl
  | cons e rest ih =>
    by_cases h : e.versionInfo = "" <;> simp [sbomIncLoop, List.filter_cons, h, ih]

/-- C8: the Cache Janitor deletes exactly those walked entries that
have readable metadata, are regular files with extension `json`, have a
determinable access time, and whose age (now minus access time, clamped
at zero) is at least `cache_duration`; younger files, files without a
determinable access time, and non-JSON files are never deleted. -/
theorem c8_clean_deletes_iff (now cd : Nat) (entries : List DirEntry) (p : String) :
    p ∈ clean_targets now cd entries ↔
      ∃ e, e ∈ entries ∧ e.path = p ∧ e.metaOk = true ∧ e.isFile = true ∧
        e.ext = some "json" ∧ ∃ t, e.accessed = some t ∧ cd ≤ now - t := by
  simp only [clean_targets, List.mem_map, List.mem_filter, decide_eq_true_eq]
  constructor
  · rintro ⟨e, ⟨⟨⟨⟨hmem, hmeta⟩, hfile⟩, hext⟩, hacc⟩, hpath⟩
    refine ⟨e, hmem, hpath, hmeta, hfile, hext, ?_⟩
    rcases ha : e.accessed with _ | t
    · rw [ha] at hacc
      simp at hacc
    · rw [ha] at hacc
      simp at hacc
      exact ⟨t, rfl, hacc⟩
  · rintro ⟨e, hmem, hpath, hmeta, hfile, hext, t, ha, ht⟩
    refine ⟨e, ⟨⟨⟨⟨hmem, hmeta⟩, hfile⟩, hext⟩, ?_⟩, hpath⟩
    rw [ha]
    simpa using ht

/-- C8 witness: the janitor characterization at a concrete stale file. -/
theorem c8_clean_deletes_iff_witness :
    "/cache/sbom/docker/x.json" ∈ clean_targets 100 10 [entryStale] ↔
      ∃ e, e ∈ [entryStale] ∧ e.path = "/cache/sbom/docker/x.json" ∧
        e.metaOk = true ∧ e.isFile = true ∧ e.ext = some "json" ∧
        ∃ t, e.accessed = some t ∧ 10 ≤ 100 - t :=
  c8_clean_deletes_iff 100 10 [entryStale] "/cache/sbom/docker/x.json"

/-- C9 counterexample: a concrete two-source active-mode batch in which
both sources run the generator.  The claim says each stage spawns one
independent task per source and joins them, so distinct sources'
resolutions can run and interleave concurrently; the computed trace
shows the opposite — the first source's generator has exited and its
cache write completed before the second source's generator is spawned.
The loop in `create_sboms` awaits each source's resolution to
completion before starting the next; no per-source tasks exist. -/
theorem c9_sequential_counterexample :
    (create_sboms wSeq cfgActive [srcA, srcB]).1
      = [Event.spawn (.syft ["scan", "--quiet", "-o", "spdx-json",
            "--override-default-catalogers", "all", "imgA"]),
         Event.exit (.syft ["scan", "--quiet", "-o", "spdx-json",
            "--override-default-catalogers", "all", "imgA"]),
         Event.fsWrite "/cache/sbom/docker/ida.json",
         Event.spawn (.syft ["scan", "--quiet", "-o", "spdx-json",
            "--override-default-catalogers", "all", "imgB"]),
         Event.exit (.syft ["scan", "--quiet", "-o", "spdx-json",
            "--override-default-catalogers", "all", "imgB"]),
         Event.fsWrite "/cache/sbom/docker/idb.json"] := rfl

/-- C9 amended: the two stages are strictly sequential, not concurrent
fan-outs — each stage's event trace is exactly the concatenation of the
per-source traces in input order (for `scan`, after the single database
refresh), so one source's resolution (respectively scan) completes
before the next one begins and no interleaving between distinct
sources' work is possible. -/
theorem c9_stages_sequential :
    (∀ (w : World) (c : Config) (sources : List Source),
      (create_sboms w c sources).1 = sources.flatMap (bodyTrace (sbomBody w c))) ∧
    (∀ (sw : ScanWorld) (sboms : List (Source × Value)) (st : Nat),
      sw.update = .exited st →
      (scan sw sboms).1
        = Event.spawn Proc.grypeUpdate :: Event.exit Proc.grypeUpdate ::
          sboms.flatMap (bodyTrace (scanBody sw))) := by
  constructor
  · intro w c sources
    simp [create_sboms, fanoutLoop_trace]
  · intro sw sboms st h
    simp [scan, h, fanoutLoop_trace]

/-- C9 amendment witness: the sequential-trace theorem at concrete
batches for both stages. -/
theorem c9_stages_sequential_witness :
    (create_sboms wSeq cfgActive [srcA, srcB]).1
      = [srcA, srcB].flatMap (bodyTrace (sbomBody wSeq cfgActive)) ∧
    (scan swNonzero [(srcA, Value.null)]).1
      = Event.spawn Proc.grypeUpdate :: Event.exit Proc.grypeUpdate ::
        [(srcA, Value.null)].flatMap (bodyTrace (scanBody swNonzero)) :=
  ⟨c9_stages_sequential.1 wSeq cfgActive [srcA, srcB],
    c9_stages_sequential.2 swNonzero [(srcA, Value.null)] 1 rfl⟩

/-- A fan-out loop ignores exactly the items its body skips. -/
theorem fanoutLoop_skip_filter {ι β : Type}
    (body : ι → Option (List Event × Except String (Source × β))) :
    ∀ (xs : List ι) (acc : List (Source × β)),
      fanoutLoop body xs acc
        = fanoutLoop body (xs.filter (fun x => (body x).isSome)) acc := by
  intro xs
  induction xs with
  | nil => intro acc; rfl
  | cons x rest ih =>
    intro acc
    rcases h : body x with _ | ⟨ev, r⟩
    · simp [fanoutLoop, h, List.filter_cons, ih]
    · rcases r with e | ⟨k, v⟩ <;> simp [fanoutLoop, h, List.filter_cons, ih]

/-- In passive mode, the loop body is defined exactly on docker images. -/
theorem sbomBody_passive_isSome (w : World) (c : Config) (x : Source)
    (hg : c.generate_sboms = false) : (sbomBody w c x).isSome = isDocker x := by
  rcases x with ⟨name, id⟩ | ⟨path⟩ <;> simp [sbomBody, hg, Config.sbom_path, isDocker]

/-- In passive mode, a host-directory source produces no loop body. -/
theorem sbomBody_passive_host (w : World) (c : Config) (path : String)
    (hg : c.generate_sboms = false) : sbomBody w c (.hostDirectory path) = none := by
  simp [sbomBody, hg, Config.sbom_path]

/-- C10: with `generate_sboms = false`, `create_sboms` silently skips
every `HostDirectory` source — the whole run (events and result) equals
the run on the docker-image sources alone, the stage still returns
`Ok`, and no host-directory key appears in the returned map. -/
theorem c10_passive_skips_host_dirs (w : World) (c : Config) (sources : List Source)
    (hg : c.generate_sboms = false) :
    create_sboms w c sources = create_sboms w c (sources.filter isDocker) ∧
    (create_sboms w c sources).2 = .ok (sbomMapOf w c sources) ∧
    ∀ path, mapGet (sbomMapOf w c sources) (.hostDirectory path) = none := by
  refine ⟨?_, create_sboms_ok w c sources, ?_⟩
  · have h1 : fanoutLoop (sbomBody w c) sources []
        = fanoutLoop (sbomBody w c) (sources.filter isDocker) [] := by
      rw [fanoutLoop_skip_filter]
      congr 1
      exact List.filter_congr (fun x _ => sbomBody_passive_isSome w c x hg)
    simp [create_sboms, h1]
  · intro path
    rw [sbomMapOf, fanoutLoop_map]
    refine foldl_get_none _ _ sources [] ?_ rfl
    intro x hx v hstep
    have hk := sbomBody_step_key w c x (.hostDirectory path) v hstep
    rw [← hk] at hstep
    simp [bodyStep, sbomBody_passive_host w c path hg] at hstep

/-- C10 witness: a passive-mode batch with one docker image and one
host directory — the host directory contributes nothing. -/
theorem c10_passive_skips_host_dirs_witness :
    create_sboms wCacheHit cfgPassive [srcA, .hostDirectory "/"]
      = create_sboms wCacheHit cfgPassive ([srcA, .hostDirectory "/"].filter isDocker) ∧
    (create_sboms wCacheHit cfgPassive [srcA, .hostDirectory "/"]).2
      = .ok (sbomMapOf wCacheHit cfgPassive [srcA, .hostDirectory "/"]) ∧
    mapGet (sbomMapOf wCacheHit cfgPassive [srcA, .hostDirectory "/"])
      (.hostDirectory "/") = none :=
  ⟨(c10_passive_skips_host_dirs wCacheHit cfgPassive [srcA, .hostDirectory "/"] rfl).1,
    (c10_passive_skips_host_dirs wCacheHit cfgPassive [srcA, .hostDirectory "/"] rfl).2.1,
    (c10_passive_skips_host_dirs wCacheHit cfgPassive [srcA, .hostDirectory "/"] rfl).2.2
      "/"⟩

end Ssce
